import Mathlib

/-!
Verification of the submission-eligibility and content-cache logic of the
`a-plus` repository (src/exercise/exercise_models.py and src/lib/cached.py).

Shallow embedding conventions:
* timestamps are integers (an abstract time unit; only order and addition of
  offsets matter to the code);
* Django querysets become Lean lists, with the submissions of the exercise
  under scrutiny passed explicitly as a `List Submission`;
* the reference data owned by other apps (course module / course instance /
  category accessors, deviation records, group records) is represented by
  structures whose accessor semantics, where their defining file is not part
  of the sources, is modelled from the specification (each such definition
  carries a doc comment saying so);
* warning messages become tags of the inductive type `Warning`, one tag per
  distinct message produced by the source.
-/

namespace APlus

/-- Timing states of `BaseExercise.TIMING` (src/exercise/exercise_models.py). -/
inductive TIMING
  | CLOSED_BEFORE
  | OPEN
  | LATE
  | UNOFFICIAL
  | CLOSED_AFTER
  | ARCHIVED
  deriving DecidableEq, Repr

/-- Status values of `LearningObject.STATUS` (src/exercise/exercise_models.py). -/
inductive STATUS
  | ready
  | unlisted
  | enrollment
  | enrollment_ext
  | hidden
  | maintenance
  deriving DecidableEq, Repr

/-- One warning tag per distinct warning message appended by the source. -/
inductive Warning
  | late_penalty_note
  | unofficial_note
  | opens_for_submissions
  | deadline_passed
  | course_archived
  | cannot_enroll
  | must_enroll
  | submitted_alone
  | submitted_with_collaborators
  | group_already_submitted
  | group_size_requirement
  | quota_used_unofficial_ok
  | quota_used
  deriving DecidableEq, Repr

/-- A `StudentGroup` (course app): identity plus member profile ids. -/
structure StudentGroup where
  id : Int
  members : List Nat
  deriving DecidableEq, Repr

/-- Modelled from the spec: `StudentGroup.equals` (course/models.py is not under
src/); §3 says group equality compares member sets, not order. -/
def StudentGroup.equals (g : StudentGroup) (profiles : List Nat) : Bool :=
  g.members.all (fun p => profiles.contains p) && profiles.all (fun p => g.members.contains p)

/-- An enrollment row; only the selected group matters to the eligibility code. -/
structure Enrollment where
  selected_group : Option StudentGroup
  deriving DecidableEq, Repr

/-- The course-instance reference data consumed by the eligibility code,
as the read-only accessors of spec §6. -/
structure CourseInstance where
  archive_time : Option Int
  is_course_staff : Nat → Bool
  is_enrollable : Nat → Bool
  get_enrollment_for : Nat → Option Enrollment

/-- Modelled from the spec: `CourseInstance.is_archived` (course/models.py is
not under src/); §3 says the course instance carries an archival time and §6
offers `isArchived(now)`: archived once the archive time has been reached. -/
def CourseInstance.is_archived (ci : CourseInstance) (when : Int) : Bool :=
  match ci.archive_time with
  | some t => decide (t ≤ when)
  | none => false

/-- The course-module schedule consumed by the eligibility code. -/
structure CourseModule where
  opening_time : Int
  closing_time : Int
  late_submission_deadline : Int
  late_submissions_allowed : Bool
  course_instance : CourseInstance

/-- Modelled from the spec: `CourseModule.is_after_open` (course/models.py is
not under src/); §6 accessor `isAfterOpen(now)`: the module has opened by `when`. -/
def CourseModule.is_after_open (m : CourseModule) (when : Int) : Bool :=
  decide (m.opening_time ≤ when)

/-- Modelled from the spec: `CourseModule.is_open` (course/models.py is not
under src/); §6 accessor `isOpen(now)`: `when` lies between opening and closing. -/
def CourseModule.is_open (m : CourseModule) (when : Int) : Bool :=
  decide (m.opening_time ≤ when) && decide (when ≤ m.closing_time)

/-- Modelled from the spec: `CourseModule.is_late_submission_open`
(course/models.py is not under src/); §4.1 state 4: the module's own
late-submission window is open when late submissions are allowed and `when`
lies between closing time and the late-submission deadline. -/
def CourseModule.is_late_submission_open (m : CourseModule) (when : Int) : Bool :=
  m.late_submissions_allowed &&
    (decide (m.closing_time ≤ when) && decide (when ≤ m.late_submission_deadline))

/-- Category flags of `LearningObjectCategory` used by `get_timing`. -/
structure LearningObjectCategory where
  confirm_the_level : Bool
  accept_unofficial_submits : Bool
  deriving DecidableEq, Repr

/-- A `DeadlineRuleDeviation` row scoped to the exercise: submitter profile id,
extra time and the penalty-waiver flag. -/
structure DeadlineRuleDeviation where
  submitter : Nat
  extra_time : Int
  without_late_penalty : Bool
  deriving DecidableEq, Repr

/-- Modelled from the spec: `DeadlineRuleDeviation.get_new_deadline`
(deviations app is not under src/); §3 and §4.1 state 4 say the resulting
deadline is the module's own deadline plus the granted extra time. -/
def DeadlineRuleDeviation.get_new_deadline (d : DeadlineRuleDeviation)
    (closing_time : Int) : Int :=
  closing_time + d.extra_time

/-- A `MaxSubmissionsRuleDeviation` row scoped to the exercise. -/
structure MaxSubmissionsRuleDeviation where
  submitter : Nat
  extra_submissions : Nat
  deriving DecidableEq, Repr

/-- A submission of the exercise under scrutiny: its submitter profile ids in
queryset order, and whether it is in an error state (the states removed by the
`exclude_errors` queryset filter). -/
structure Submission where
  submitters : List Nat
  is_error : Bool
  deriving DecidableEq, Repr

/-- The `BaseExercise` row fields read by the eligibility code, together with
the deviation rows scoped to this exercise (the `*_set` related managers). -/
structure BaseExercise where
  status : STATUS
  course_module : CourseModule
  category : LearningObjectCategory
  min_group_size : Nat
  max_group_size : Nat
  max_submissions : Nat
  deadlineruledeviation_set : List DeadlineRuleDeviation
  maxsubmissionsruledeviation_set : List MaxSubmissionsRuleDeviation

/-- `LearningObject.course_instance` property: the module's course instance. -/
def BaseExercise.course_instance (e : BaseExercise) : CourseInstance :=
  e.course_module.course_instance

/-- `BaseExercise.get_submissions_for_student`: this student's submissions to
the exercise, optionally excluding error-state submissions.  `subs` is the
exercise's submission list. -/
def get_submissions_for_student (subs : List Submission) (user_profile : Nat)
    (exclude_errors : Bool) : List Submission :=
  let submissions := if exclude_errors then subs.filter (fun s => !s.is_error) else subs
  submissions.filter (fun s => s.submitters.contains user_profile)

/-- `BaseExercise.max_submissions_for_student`: the exercise default plus the
student's max-submissions deviation, when one exists. -/
def BaseExercise.max_submissions_for_student (e : BaseExercise) (user_profile : Nat) : Nat :=
  match e.maxsubmissionsruledeviation_set.find? (fun d => d.submitter == user_profile) with
  | some deviation => e.max_submissions + deviation.extra_submissions
  | none => e.max_submissions

/-- `BaseExercise.one_has_submissions`: true when submissions are unlimited or
some student still has a non-error submission count below their personal
maximum. -/
def BaseExercise.one_has_submissions (e : BaseExercise) (subs : List Submission)
    (students : List Nat) : Bool :=
  if e.max_submissions == 0 then true
  else students.any (fun profile =>
    decide ((get_submissions_for_student subs profile true).length
      < e.max_submissions_for_student profile))

/-- `BaseExercise.no_submissions_left`: true when submissions are limited and
every student's non-error submission count strictly exceeds their personal
maximum. -/
def BaseExercise.no_submissions_left (e : BaseExercise) (subs : List Submission)
    (students : List Nat) : Bool :=
  if e.max_submissions == 0 then false
  else students.all (fun profile =>
    !decide ((get_submissions_for_student subs profile true).length
      ≤ e.max_submissions_for_student profile))

/-- The inner selection step of `BaseExercise.one_has_deadline_deviation`:
keep the deviation with the strictly later resulting deadline (first seen
wins ties). -/
def pick_deviation (closing_time : Int) (acc : Option DeadlineRuleDeviation)
    (d : DeadlineRuleDeviation) : Option DeadlineRuleDeviation :=
  match acc with
  | none => some d
  | some deviation =>
    if deviation.get_new_deadline closing_time < d.get_new_deadline closing_time
    then some d else some deviation

/-- `BaseExercise.one_has_deadline_deviation`: over all students and all of
their deadline deviations for this exercise, the one with the latest
resulting deadline, if any. -/
def BaseExercise.one_has_deadline_deviation (e : BaseExercise) (students : List Nat) :
    Option DeadlineRuleDeviation :=
  students.foldl (fun acc profile =>
    (e.deadlineruledeviation_set.filter (fun d => d.submitter == profile)).foldl
      (pick_deviation e.course_module.closing_time) acc) none

/-- The tail of `BaseExercise.get_timing` past the open and archive checks:
deviation window, module late window, unofficial, closed. -/
def BaseExercise.get_timing_past_close (e : BaseExercise) (students : List Nat)
    (when : Int) : TIMING × Int :=
  let module := e.course_module
  match e.one_has_deadline_deviation students with
  | some deviation =>
    let dl := deviation.get_new_deadline module.closing_time
    if when ≤ dl then
      if deviation.without_late_penalty then (TIMING.OPEN, dl) else (TIMING.LATE, dl)
    else if module.is_late_submission_open when then
      (TIMING.LATE, module.late_submission_deadline)
    else if e.category.accept_unofficial_submits then (TIMING.UNOFFICIAL, dl)
    else (TIMING.CLOSED_AFTER, dl)
  | none =>
    if module.is_late_submission_open when then
      (TIMING.LATE, module.late_submission_deadline)
    else
      let dl := if module.late_submissions_allowed then module.late_submission_deadline
                else module.closing_time
      if e.category.accept_unofficial_submits then (TIMING.UNOFFICIAL, dl)
      else (TIMING.CLOSED_AFTER, dl)

/-- `BaseExercise.get_timing`: the timing state and governing deadline for the
given students at instant `when`. -/
def BaseExercise.get_timing (e : BaseExercise) (students : List Nat) (when : Int) :
    TIMING × Int :=
  let module := e.course_module
  if !(module.is_after_open when) then (TIMING.CLOSED_BEFORE, module.opening_time)
  else if module.is_open when || e.category.confirm_the_level then
    (TIMING.OPEN, module.closing_time)
  else match module.course_instance.archive_time with
    | some dl =>
      if module.course_instance.is_archived when then (TIMING.ARCHIVED, dl)
      else e.get_timing_past_close students when
    | none => e.get_timing_past_close students when

/-- `BaseExercise.one_has_access`: translate the timing state into an access
verdict plus warning tags (the unreachable final `return False,["ERROR"]` of
the source has no counterpart because the match is total). -/
def BaseExercise.one_has_access (e : BaseExercise) (students : List Nat) (when : Int) :
    Bool × List Warning :=
  match (e.get_timing students when).1 with
  | TIMING.OPEN => (true, [])
  | TIMING.LATE => (true, [Warning.late_penalty_note])
  | TIMING.UNOFFICIAL => (true, [Warning.unofficial_note])
  | TIMING.CLOSED_BEFORE => (false, [Warning.opens_for_submissions])
  | TIMING.CLOSED_AFTER => (false, [Warning.deadline_passed])
  | TIMING.ARCHIVED => (false, [Warning.course_archived])

/-- The value of the `_aplus_group` POST parameter when it is present:
either a well-formed integer or a string that fails `int(...)`. -/
inductive GroupParam
  | malformed
  | gid (g : Int)
  deriving DecidableEq, Repr

/-- The part of the request read by `_check_submission_allowed`: the optional
`_aplus_group` POST parameter. -/
structure Request where
  aplus_group : Option GroupParam
  deriving DecidableEq, Repr

/-- The requesting user profile: its id and its groups of this course instance
(the queryset `profile.groups.filter(course_instance=...)`). -/
structure UserProfile where
  id : Nat
  groups : List StudentGroup
  deriving DecidableEq, Repr

/-- `BaseExercise._detect_group_changes`: with a requested group, membership
must equal the prior submission's submitter set; without one, the prior
submission must be a solo submission by the requester.  (The source indexes
`submitters[0]`, so a submission is assumed to have at least one submitter;
an empty submitter list is treated as a change.) -/
def detect_group_changes (profile : Nat) (group : Option StudentGroup)
    (submission : Submission) : Bool :=
  let submitters := submission.submitters
  match group with
  | some g => !(g.equals submitters)
  | none => decide (submitters.length > 1) || !(submitters.head? == some profile)

/-- `BaseExercise._detect_submissions`: some other member of the requested
group already has a submission to this exercise. -/
def BaseExercise.detect_submissions (_e : BaseExercise) (subs : List Submission)
    (profile : Nat) (group : Option StudentGroup) : Bool :=
  match group with
  | some g => !(g.members.all (fun p =>
      p == profile || decide ((get_submissions_for_student subs p false).length = 0)))
  | none => false

/-- The submitter set of `_check_submission_allowed` step "Get submitters":
the requested group's members, else the requester alone. -/
def resolve_students (profile : UserProfile) (group : Option StudentGroup) : List Nat :=
  match group with
  | some g => g.members
  | none => [profile.id]

/-- The group-size warning of `_check_submission_allowed`: one tag when the
submitter count is outside `[min_group_size, max_group_size]`. -/
def group_size_warnings (e : BaseExercise) (students : List Nat) : List Warning :=
  if !(decide (e.min_group_size ≤ students.length) &&
       decide (students.length ≤ e.max_group_size))
  then [Warning.group_size_requirement] else []

/-- The tail of `_check_submission_allowed` from the "Check group size" step
on: group size, access/timing, quota, final verdict. -/
def BaseExercise.check_submitters (e : BaseExercise) (subs : List Submission)
    (profile : UserProfile) (group : Option StudentGroup) (when : Int) :
    Bool × List Warning × List Nat :=
  let students := resolve_students profile group
  let warnings := group_size_warnings e students
  let access := e.one_has_access students when
  let pair :=
    if !(e.one_has_submissions subs students) then
      if e.course_module.late_submissions_allowed then
        (warnings, access.2 ++ [Warning.quota_used_unofficial_ok])
      else
        (warnings ++ [Warning.quota_used], access.2)
    else (warnings, access.2)
  let ok := (access.1 && decide (pair.1 = [])) ||
    students.all (fun p => e.course_instance.is_course_staff p)
  (ok, pair.1 ++ pair.2, students)

/-- The middle of `_check_submission_allowed`: group resolution from the POST
parameter or the enrollment's selected group, then the group-change lock and
the cross-group duplicate check. -/
def BaseExercise.check_groups (e : BaseExercise) (subs : List Submission)
    (profile : UserProfile) (enrollment : Option Enrollment)
    (request : Option Request) (when : Int) : Bool × List Warning × List Nat :=
  let students := [profile.id]
  let group : Option StudentGroup :=
    match request with
    | some req =>
      match req.aplus_group with
      | some (GroupParam.gid g) =>
        if 0 < g then profile.groups.find? (fun gr => gr.id == g) else none
      | some GroupParam.malformed => none
      | none =>
        match enrollment with
        | some en => en.selected_group
        | none => none
    | none =>
      match enrollment with
      | some en => en.selected_group
      | none => none
  match get_submissions_for_student subs profile.id false with
  | s :: _ =>
    if detect_group_changes profile.id group s then
      if s.submitters.length == 1 then (false, [Warning.submitted_alone], students)
      else (false, [Warning.submitted_with_collaborators], students)
    else e.check_submitters subs profile group when
  | [] =>
    if e.detect_submissions subs profile.id group then
      (false, [Warning.group_already_submitted], students)
    else e.check_submitters subs profile group when

/-- `BaseExercise._check_submission_allowed`: the full eligibility decision,
returning the verdict, the warning tags in emission order, and the resolved
submitter set. -/
def BaseExercise.check_submission_allowed (e : BaseExercise) (subs : List Submission)
    (profile : UserProfile) (request : Option Request) (when : Int) :
    Bool × List Warning × List Nat :=
  let students := [profile.id]
  let enrollment := e.course_instance.get_enrollment_for profile.id
  if e.status == STATUS.enrollment || e.status == STATUS.enrollment_ext then
    if !(e.course_instance.is_enrollable profile.id) then
      (false, [Warning.cannot_enroll], students)
    else e.check_groups subs profile enrollment request when
  else if enrollment.isNone then
    (e.course_instance.is_course_staff profile.id, [Warning.must_enroll], students)
  else e.check_groups subs profile enrollment request when

/-! ## The content cache (src/lib/cached.py) -/

/-- `CachedAbstract._key`: the class key tag, a colon, then the model primary
keys and the modifiers joined by commas. -/
def cached_key (key_tag : String) (pks : List String) (modifiers : List String) : String :=
  key_tag ++ ":" ++ String.intercalate "," (pks ++ modifiers)

/-- The `KEY_PREFIX` of `ExerciseCache`. -/
def exerciseKeyTag : String := "exercise"

/-- The cache backend of spec §6, as an association list of key/value pairs. -/
def cacheGet {α : Type} (c : List (String × α)) (k : String) : Option α :=
  (c.find? (fun p => p.1 == k)).map (fun p => p.2)

/-- `cache.delete(key)`: drop every pair stored under `k`. -/
def cacheDelete {α : Type} (c : List (String × α)) (k : String) : List (String × α) :=
  c.filter (fun p => !(p.1 == k))

/-- `cache.set(key, data, None)`: store `v` under `k`, replacing any old pair. -/
def cacheSet {α : Type} (c : List (String × α)) (k : String) (v : α) :
    List (String × α) :=
  (k, v) :: cacheDelete c k

/-- `CachedAbstract.__init__` for the base `_needs_generation` (data absent):
return the cached value when present, else run the generation callback and
store the result unless it marked itself dirty.  Generation is modelled as a
stream `gen` indexed by a call counter `n`, each call yielding the generated
data and the `self.dirty` flag it left behind; the returned triple is the
data handed to the caller, the cache afterwards, and the new counter. -/
def cached_lookup {α : Type} (c : List (String × α)) (k : String)
    (gen : Nat → α × Bool) (n : Nat) : α × List (String × α) × Nat :=
  match cacheGet c k with
  | some data => (data, c, n)
  | none =>
    let g := gen n
    if g.2 then (g.1, c, n + 1) else (g.1, cacheSet c k g.1, n + 1)

/-- The learning-object fields read by the invalidation hooks: primary key and
optional parent primary key. -/
structure LearningObjectRow where
  pk : Nat
  parent : Option Nat
  deriving DecidableEq, Repr

/-- Modelled from the spec: the key layout of `ExerciseCache`
(exercise/cache/exercise.py is not under src/).  Spec §3/§4.5: a cache entry
is keyed by (exercise identity, language, further modifiers), so a page of
exercise `pk` rendered in language `lang` is stored under
`cached_key "exercise" [pk] ([lang] ++ rest)`; `LearningObject.load` passes
exactly the current language as the modifier list. -/
def exercise_cache_key (pk : Nat) (modifiers : List String) : String :=
  cached_key exerciseKeyTag [toString pk] modifiers

/-- `invalidate_exercise` (src/exercise/exercise_models.py): the cache keys
deleted by the save/delete signal handler — one per configured language. -/
def invalidate_exercise (languages : List String) (obj : LearningObjectRow) :
    List String :=
  languages.map (fun language => exercise_cache_key obj.pk [language])

/-- `_clear_cache` (src/exercise/exercise_models.py): the cache keys deleted
for the parent on save — `ExerciseCache.invalidate(instance.parent)` with the
default empty modifier list. -/
def clear_cache (obj : LearningObjectRow) : List String :=
  match obj.parent with
  | some parent_pk => [exercise_cache_key parent_pk []]
  | none => []

/-- All cache keys deleted when a learning object is saved: `post_save` runs
both `invalidate_exercise` and `_clear_cache`. -/
def on_save_invalidations (languages : List String) (obj : LearningObjectRow) :
    List String :=
  invalidate_exercise languages obj ++ clear_cache obj

/-- All cache keys deleted when a learning object is deleted: `post_delete`
runs only `invalidate_exercise`. -/
def on_delete_invalidations (languages : List String) (obj : LearningObjectRow) :
    List String :=
  invalidate_exercise languages obj

/-! ## The quota predicate as the spec words it -/

/-- The quota-not-exhausted predicate as spec §4.3 step 8 words it: limited
submissions are not exhausted only when *every* submitter still has at least
one remaining submission.  Stated for comparison with
`BaseExercise.one_has_submissions`, the predicate the source actually uses. -/
def quota_not_exhausted_spec (e : BaseExercise) (subs : List Submission)
    (students : List Nat) : Bool :=
  e.max_submissions == 0 ||
  students.all (fun profile =>
    decide ((get_submissions_for_student subs profile true).length
      < e.max_submissions_for_student profile))

/-! ## Concrete fixtures used by witnesses and counterexamples -/

/-- A course instance with no archive time, no staff, everyone enrollable and
enrolled with no selected group. -/
def plain_ci : CourseInstance :=
  ⟨none, fun _ => false, fun _ => true, fun _ => some ⟨none⟩⟩

/-- An exercise with `max_submissions = 1`, solo groups, module open on
`[0, 10]`, late submissions disallowed. -/
def quota_ex : BaseExercise :=
  ⟨STATUS.ready, ⟨0, 10, 10, false, plain_ci⟩, ⟨false, false⟩, 1, 1, 1, [], []⟩

/-- One non-error submission by student 1. -/
def quota_subs : List Submission := [⟨[1], false⟩]

/-- The requesting profile of student 1, member of no group. -/
def quota_prof : UserProfile := ⟨1, []⟩

/-- A deadline deviation for student 1: +5 time units, without late penalty. -/
def dev_plus5 : DeadlineRuleDeviation := ⟨1, 5, true⟩

/-- An exercise whose module is open on `[0, 10]` with a late window to 20,
and a +5 no-penalty deviation for student 1. -/
def dev_ex : BaseExercise :=
  ⟨STATUS.ready, ⟨0, 10, 20, true, plain_ci⟩, ⟨false, false⟩, 1, 1, 10, [dev_plus5], []⟩

/-- The claim C4 scenario: `min_group_size = 1`, `max_group_size = 2`,
`max_submissions = 3`, module open on `[0, 10]`, no late window, and a +2
no-penalty deviation for student 1. -/
def dev2_ex : BaseExercise :=
  ⟨STATUS.ready, ⟨0, 10, 10, false, plain_ci⟩, ⟨false, false⟩, 1, 2, 3, [⟨1, 2, true⟩], []⟩

/-- An exercise whose module opens at 10 and closes at 20, with a +10
deviation (with penalty) for student 1. -/
def before_ex : BaseExercise :=
  ⟨STATUS.ready, ⟨10, 20, 20, false, plain_ci⟩, ⟨false, false⟩, 1, 1, 1, [⟨1, 10, false⟩], []⟩

/-- A group of id 5 containing exactly student 1. -/
def solo_grp : StudentGroup := ⟨5, [1]⟩

/-- A group of id 5 containing students 1 and 2. -/
def pair_grp : StudentGroup := ⟨5, [1, 2]⟩

/-- An exercise with unlimited submissions and groups of 1-2, module open on
`[0, 10]`. -/
def lock_ex : BaseExercise :=
  ⟨STATUS.ready, ⟨0, 10, 10, false, plain_ci⟩, ⟨false, false⟩, 1, 2, 0, [], []⟩

/-- A prior solo submission by student 1. -/
def lock_subs : List Submission := [⟨[1], false⟩]

/-- A course instance where everyone is staff but nobody is enrollable or
enrolled. -/
def staff_ci : CourseInstance :=
  ⟨none, fun _ => true, fun _ => false, fun _ => none⟩

/-- An enrollment exercise of the all-staff, nobody-enrollable course. -/
def staff_ex : BaseExercise :=
  ⟨STATUS.enrollment, ⟨0, 10, 10, false, staff_ci⟩, ⟨false, false⟩, 1, 1, 0, [], []⟩

/-- A generation stream whose first call (index 0) is dirty and yields 10,
and whose call at index `m` yields `m + 10`. -/
def genW : Nat → Nat × Bool := fun m => (m + 10, m == 0)

/-! ## Claim C2 -/

/-- Claim C2, counterexample: with `max_submissions = 1`, exactly one
non-error submission by student 1 and no deviation, the per-student maximum
is 1 and the count equals it, yet `no_submissions_left` on the singleton set
returns `false` — not `true` as claimed (the source compares with `<=`, so it
answers `true` only once the count strictly exceeds the maximum). -/
theorem no_submissions_left_at_exact_quota_counterexample :
    quota_ex.max_submissions = 1 ∧
    (get_submissions_for_student quota_subs 1 true).length = 1 ∧
    quota_ex.max_submissions_for_student 1 = 1 ∧
    quota_ex.no_submissions_left quota_subs [1] = false := by decide

/-- Claim C2, amended: in the scenario (`max_submissions = 1`, student 1 with
exactly 1 non-error submission, no deviation) `no_submissions_left` returns
`false`, while `one_has_submissions` returns `false`; with late submissions
disallowed the eligibility verdict for the student is denied with exactly the
quota-exhausted warning. -/
theorem exact_quota_scenario_denied :
    quota_ex.no_submissions_left quota_subs [1] = false ∧
    quota_ex.one_has_submissions quota_subs [1] = false ∧
    quota_ex.course_module.late_submissions_allowed = false ∧
    quota_ex.check_submission_allowed quota_subs quota_prof none 5 =
      (false, [Warning.quota_used], [1]) := by decide

/-! ## Claim C10 -/

/-- Claim C10: with a non-zero `max_submissions` and a singleton student set
whose non-error submission count exactly equals the student's per-student
maximum, `one_has_submissions` and `no_submissions_left` both return `false`,
so the two predicates are not logical negations of each other. -/
theorem quota_predicates_not_negations (e : BaseExercise) (subs : List Submission)
    (sid : Nat) (hmax : e.max_submissions ≠ 0)
    (hcount : (get_submissions_for_student subs sid true).length =
      e.max_submissions_for_student sid) :
    e.one_has_submissions subs [sid] = false ∧
      e.no_submissions_left subs [sid] = false := by
  have hb : (e.max_submissions == 0) = false := by simpa using hmax
  constructor
  · simp [BaseExercise.one_has_submissions, hb, hcount]
  · simp [BaseExercise.no_submissions_left, hb, hcount]

/-- Witness for claim C10 at the concrete exact-quota fixture. -/
theorem quota_predicates_not_negations_witness :
    quota_ex.one_has_submissions quota_subs [1] = false ∧
      quota_ex.no_submissions_left quota_subs [1] = false :=
  quota_predicates_not_negations quota_ex quota_subs 1 (by decide) (by decide)

/-! ## Claim C8 -/

/-- Claim C8: saving a learning object does delete one `ExerciseCache` key per
configured language and deleting it does the same, and a save with a parent
additionally deletes a key for the parent — but that parent key carries no
language modifier (`ExerciseCache.invalidate(instance.parent)` with the
default empty modifier list), so the keys under which the parent's rendered
pages are actually stored, `exercise_cache_key parent [lang]`, are not among
the deleted keys: the parent's cache entries survive, contradicting
`_clear_cache`'s own docstring ("Clears parent's cached html if any"). -/
theorem parent_invalidation_misses_language_keys :
    on_save_invalidations ["en", "fi"] ⟨2, some 1⟩ =
      [exercise_cache_key 2 ["en"], exercise_cache_key 2 ["fi"], exercise_cache_key 1 []] ∧
    on_delete_invalidations ["en", "fi"] ⟨2, some 1⟩ =
      [exercise_cache_key 2 ["en"], exercise_cache_key 2 ["fi"]] ∧
    exercise_cache_key 1 [] = "exercise:1" ∧
    exercise_cache_key 1 ["en"] = "exercise:1,en" ∧
    exercise_cache_key 1 ["en"] ∉ on_save_invalidations ["en", "fi"] ⟨2, some 1⟩ ∧
    exercise_cache_key 1 ["fi"] ∉ on_save_invalidations ["en", "fi"] ⟨2, some 1⟩ := by
  decide

/-! ## Timing helper lemmas -/

/-- While the module is open (or the category confirms the level),
`get_timing` answers OPEN with the module's closing time. -/
lemma get_timing_open_now (e : BaseExercise) (students : List Nat) (when : Int)
    (h1 : e.course_module.is_after_open when = true)
    (h2 : (e.course_module.is_open when || e.category.confirm_the_level) = true) :
    e.get_timing students when = (TIMING.OPEN, e.course_module.closing_time) := by
  simp [BaseExercise.get_timing, h1, h2]

/-- Past the open window and archival, an unexpired no-penalty deviation makes
`get_timing` answer OPEN with the deviation's deadline. -/
lemma get_timing_deviation_open (e : BaseExercise) (students : List Nat) (when : Int)
    (d : DeadlineRuleDeviation)
    (h1 : e.course_module.is_after_open when = true)
    (h2 : (e.course_module.is_open when || e.category.confirm_the_level) = false)
    (harch : e.course_instance.is_archived when = false)
    (hdev : e.one_has_deadline_deviation students = some d)
    (hpen : d.without_late_penalty = true)
    (hle : when ≤ d.get_new_deadline e.course_module.closing_time) :
    e.get_timing students when =
      (TIMING.OPEN, d.get_new_deadline e.course_module.closing_time) := by
  have harch' : e.course_module.course_instance.is_archived when = false := harch
  cases hat : e.course_module.course_instance.archive_time with
  | none =>
    simp [BaseExercise.get_timing, h1, h2, hat,
      BaseExercise.get_timing_past_close, hdev, hle, hpen]
  | some a =>
    simp [BaseExercise.get_timing, h1, h2, hat, harch',
      BaseExercise.get_timing_past_close, hdev, hle, hpen]

/-! ## Claim C3 -/

/-- Claim C3, amended: while the module is open (or the category confirms the
level) `get_timing` answers OPEN with the module's closing time
*unconditionally* — a pending no-penalty deviation does not replace the
deadline there; the deviation deadline is answered (also as state OPEN) only
once the module is no longer open and the course is not archived. -/
theorem open_state_deadline (e : BaseExercise) (students : List Nat) (when : Int)
    (h1 : e.course_module.is_after_open when = true) :
    ((e.course_module.is_open when || e.category.confirm_the_level) = true →
      e.get_timing students when = (TIMING.OPEN, e.course_module.closing_time)) ∧
    (∀ d : DeadlineRuleDeviation,
      (e.course_module.is_open when || e.category.confirm_the_level) = false →
      e.course_instance.is_archived when = false →
      e.one_has_deadline_deviation students = some d →
      d.without_late_penalty = true →
      when ≤ d.get_new_deadline e.course_module.closing_time →
      e.get_timing students when =
        (TIMING.OPEN, d.get_new_deadline e.course_module.closing_time)) :=
  ⟨fun h2 => get_timing_open_now e students when h1 h2,
   fun d h2 harch hdev hpen hle =>
     get_timing_deviation_open e students when d h1 h2 harch hdev hpen hle⟩

/-- Witness for claim C3 at the concrete fixture: module closed at 10,
instant 12, +5 no-penalty deviation, answer (OPEN, 15). -/
theorem open_state_deadline_witness :
    dev_ex.get_timing [1] 12 =
      (TIMING.OPEN, dev_plus5.get_new_deadline dev_ex.course_module.closing_time) :=
  (open_state_deadline dev_ex [1] 12 (by decide)).2 dev_plus5 (by decide) (by decide)
    (by decide) (by decide) (by decide)

/-- Claim C3, counterexample: module open on `[0, 10]` at instant 5, a
no-penalty deviation whose resulting deadline 15 lies in the future — the
claim says the returned deadline is then the deviation's deadline, but the
code returns the closing time 10. -/
theorem open_now_ignores_deviation_counterexample :
    dev_ex.course_module.is_open 5 = true ∧
    dev_ex.one_has_deadline_deviation [1] = some dev_plus5 ∧
    dev_plus5.without_late_penalty = true ∧
    (5 : Int) < dev_plus5.get_new_deadline dev_ex.course_module.closing_time ∧
    dev_ex.get_timing [1] 5 = (TIMING.OPEN, dev_ex.course_module.closing_time) ∧
    dev_ex.course_module.closing_time ≠
      dev_plus5.get_new_deadline dev_ex.course_module.closing_time := by decide

/-! ## Claim C4 -/

/-- Claim C4: one time unit after the module's closing time (module had
opened, category does not confirm the level, course not archived), a student
holding a single +2 deviation without late penalty gets timing state OPEN
with deadline the original closing time plus 2. -/
theorem deviation_two_hours_open (e : BaseExercise) (sid : Nat)
    (d : DeadlineRuleDeviation)
    (hop : e.course_module.opening_time ≤ e.course_module.closing_time)
    (hconf : e.category.confirm_the_level = false)
    (harch : e.course_instance.is_archived (e.course_module.closing_time + 1) = false)
    (hdev : e.deadlineruledeviation_set = [d])
    (hsub : d.submitter = sid)
    (hextra : d.extra_time = 2)
    (hpen : d.without_late_penalty = true) :
    e.get_timing [sid] (e.course_module.closing_time + 1) =
      (TIMING.OPEN, e.course_module.closing_time + 2) := by
  have h1 : e.course_module.is_after_open (e.course_module.closing_time + 1) = true := by
    simp only [CourseModule.is_after_open, decide_eq_true_eq]
    omega
  have h2 : (e.course_module.is_open (e.course_module.closing_time + 1) ||
      e.category.confirm_the_level) = false := by
    simp only [CourseModule.is_open, hconf, Bool.or_false, Bool.and_eq_false_iff,
      decide_eq_false_iff_not]
    omega
  have hdevr : e.one_has_deadline_deviation [sid] = some d := by
    simp [BaseExercise.one_has_deadline_deviation, hdev, hsub, pick_deviation]
  have hnd : d.get_new_deadline e.course_module.closing_time =
      e.course_module.closing_time + 2 := by
    simp [DeadlineRuleDeviation.get_new_deadline, hextra]
  have h := get_timing_deviation_open e [sid] (e.course_module.closing_time + 1) d h1 h2
    harch hdevr hpen (by rw [hnd]; omega)
  rw [hnd] at h
  exact h

/-- Witness for claim C4 at the concrete scenario fixture
(`min_group_size = 1`, `max_group_size = 2`, `max_submissions = 3`,
closing time 10, +2 no-penalty deviation, instant 11). -/
theorem deviation_two_hours_open_witness :
    dev2_ex.get_timing [1] (dev2_ex.course_module.closing_time + 1) =
      (TIMING.OPEN, dev2_ex.course_module.closing_time + 2) :=
  deviation_two_hours_open dev2_ex 1 ⟨1, 2, true⟩ (by decide) (by decide) (by decide)
    (by decide) (by decide) (by decide) (by decide)

/-! ## Claim C6 -/

/-- Claim C6, amended: once the requester's first stored submission was solo,
a later attempt whose *resolved group's member set differs from the solo
submitter set* is denied with the submitted-alone warning (which carries the
group-change lock message); a selected group whose membership is exactly the
requester again is not treated as a group change. -/
theorem group_change_lock_after_solo (e : BaseExercise) (subs : List Submission)
    (profile : UserProfile) (req : Request) (g : StudentGroup) (gid : Int)
    (when : Int) (s : Submission) (rest : List Submission) (en : Enrollment)
    (hstatus : e.status = STATUS.ready)
    (henr : e.course_instance.get_enrollment_for profile.id = some en)
    (hreq : req.aplus_group = some (GroupParam.gid gid))
    (hgid : 0 < gid)
    (hfind : profile.groups.find? (fun gr => gr.id == gid) = some g)
    (hsubs : get_submissions_for_student subs profile.id false = s :: rest)
    (hsolo : s.submitters = [profile.id])
    (hdiff : g.equals [profile.id] = false) :
    e.check_submission_allowed subs profile (some req) when =
      (false, [Warning.submitted_alone], [profile.id]) := by
  have hst : (e.status == STATUS.enrollment || e.status == STATUS.enrollment_ext)
      = false := by
    rw [hstatus]; rfl
  have henr' : (e.course_instance.get_enrollment_for profile.id).isNone = false := by
    rw [henr]; rfl
  simp [BaseExercise.check_submission_allowed, hst, henr', BaseExercise.check_groups,
    hreq, hgid, hfind, hsubs, detect_group_changes, hsolo, hdiff]

/-- Witness for claim C6: student 1 submitted solo, then requests group
`{1, 2}` — denied with the submitted-alone warning. -/
theorem group_change_lock_after_solo_witness :
    lock_ex.check_submission_allowed lock_subs ⟨1, [pair_grp]⟩
      (some ⟨some (GroupParam.gid 5)⟩) 5 = (false, [Warning.submitted_alone], [1]) :=
  group_change_lock_after_solo lock_ex lock_subs ⟨1, [pair_grp]⟩
    ⟨some (GroupParam.gid 5)⟩ pair_grp 5 5 ⟨[1], false⟩ [] ⟨none⟩ (by decide) (by decide)
    (by decide) (by decide) (by decide) (by decide) (by decide) (by decide)

/-- Claim C6, counterexample: student 1 has a prior solo submission and selects
the non-empty group of id 5 whose member set is exactly `{1}` — the claim says
any later attempt with a non-empty group selection is denied, but the attempt
is allowed because `_detect_group_changes` compares member sets. -/
theorem solo_singleton_group_counterexample :
    get_submissions_for_student lock_subs 1 false = [⟨[1], false⟩] ∧
    solo_grp.members ≠ [] ∧
    (⟨1, [solo_grp]⟩ : UserProfile).groups.find? (fun gr => gr.id == 5) = some solo_grp ∧
    lock_ex.check_submission_allowed lock_subs ⟨1, [solo_grp]⟩
      (some ⟨some (GroupParam.gid 5)⟩) 5 = (true, [], [1]) := by decide

/-! ## Deviation-resolver fold lemmas -/

/-- Folding `pick_deviation` from a present accumulator stays present and
never lowers the resulting deadline. -/
lemma foldl_pick_some (closing : Int) (ds : List DeadlineRuleDeviation) :
    ∀ a : DeadlineRuleDeviation,
      ∃ r, ds.foldl (pick_deviation closing) (some a) = some r ∧
        a.get_new_deadline closing ≤ r.get_new_deadline closing := by
  induction ds with
  | nil => exact fun a => ⟨a, rfl, le_refl _⟩
  | cons d ds ih =>
    intro a
    rw [List.foldl_cons]
    by_cases h : a.get_new_deadline closing < d.get_new_deadline closing
    · obtain ⟨r, hr, hle⟩ := ih d
      exact ⟨r, by simpa [pick_deviation, h] using hr, le_trans (le_of_lt h) hle⟩
    · obtain ⟨r, hr, hle⟩ := ih a
      exact ⟨r, by simpa [pick_deviation, h] using hr, hle⟩

/-- Folding `pick_deviation` over a list containing `d` yields a deviation
whose resulting deadline is at least `d`'s. -/
lemma foldl_pick_mem (closing : Int) (ds : List DeadlineRuleDeviation)
    (d : DeadlineRuleDeviation) :
    ∀ acc, d ∈ ds →
      ∃ r, ds.foldl (pick_deviation closing) acc = some r ∧
        d.get_new_deadline closing ≤ r.get_new_deadline closing := by
  induction ds with
  | nil => intro acc hd; cases hd
  | cons x ds ih =>
    intro acc hd
    rw [List.foldl_cons]
    rcases List.mem_cons.mp hd with h | h
    · subst h
      have hstep : ∃ y, pick_deviation closing acc d = some y ∧
          d.get_new_deadline closing ≤ y.get_new_deadline closing := by
        cases acc with
        | none => exact ⟨d, rfl, le_refl _⟩
        | some a =>
          by_cases ha : a.get_new_deadline closing < d.get_new_deadline closing
          · exact ⟨d, by simp [pick_deviation, ha], le_refl _⟩
          · exact ⟨a, by simp [pick_deviation, ha], le_of_not_lt ha⟩
      obtain ⟨y, hy, hled⟩ := hstep
      rw [hy]
      obtain ⟨r, hr, hler⟩ := foldl_pick_some closing ds y
      exact ⟨r, hr, le_trans hled hler⟩
    · exact ih (pick_deviation closing acc x) h

/-- The per-student outer fold of `one_has_deadline_deviation` keeps a present
accumulator present without lowering the resulting deadline. -/
lemma foldl_devstep_some (closing : Int) (devs : List DeadlineRuleDeviation)
    (students : List Nat) :
    ∀ a : DeadlineRuleDeviation,
      ∃ r, students.foldl (fun acc profile =>
          (devs.filter (fun x => x.submitter == profile)).foldl
            (pick_deviation closing) acc) (some a) = some r ∧
        a.get_new_deadline closing ≤ r.get_new_deadline closing := by
  induction students with
  | nil => exact fun a => ⟨a, rfl, le_refl _⟩
  | cons p ps ih =>
    intro a
    rw [List.foldl_cons]
    obtain ⟨y, hy, h1⟩ :=
      foldl_pick_some closing (devs.filter (fun x => x.submitter == p)) a
    rw [hy]
    obtain ⟨r, hr, h2⟩ := ih y
    exact ⟨r, hr, le_trans h1 h2⟩

/-- The outer fold of `one_has_deadline_deviation` resolves to some deviation
whose resulting deadline dominates any deviation of any listed student. -/
lemma foldl_devstep_mem (closing : Int) (devs : List DeadlineRuleDeviation)
    (students : List Nat) (d : DeadlineRuleDeviation) (hmem : d ∈ devs) :
    ∀ acc, d.submitter ∈ students →
      ∃ r, students.foldl (fun acc profile =>
          (devs.filter (fun x => x.submitter == profile)).foldl
            (pick_deviation closing) acc) acc = some r ∧
        d.get_new_deadline closing ≤ r.get_new_deadline closing := by
  induction students with
  | nil => intro acc h; cases h
  | cons p ps ih =>
    intro acc hsub
    rw [List.foldl_cons]
    rcases List.mem_cons.mp hsub with h | h
    · have hdf : d ∈ devs.filter (fun x => x.submitter == p) := by
        rw [List.mem_filter]
        exact ⟨hmem, by simp [h]⟩
      obtain ⟨y, hy, h1⟩ :=
        foldl_pick_mem closing (devs.filter (fun x => x.submitter == p)) d acc hdf
      rw [hy]
      obtain ⟨r, hr, h2⟩ := foldl_devstep_some closing devs ps y
      exact ⟨r, hr, le_trans h1 h2⟩
    · exact ih _ h

/-- `one_has_deadline_deviation` resolves to a deviation whose resulting
deadline is at least that of any applicable deviation. -/
lemma one_has_deadline_deviation_ge (e : BaseExercise) (students : List Nat)
    (d : DeadlineRuleDeviation) (hmem : d ∈ e.deadlineruledeviation_set)
    (hsub : d.submitter ∈ students) :
    ∃ r, e.one_has_deadline_deviation students = some r ∧
      d.get_new_deadline e.course_module.closing_time ≤
        r.get_new_deadline e.course_module.closing_time :=
  foldl_devstep_mem e.course_module.closing_time e.deadlineruledeviation_set
    students d hmem none hsub

/-- In the past-close tail, once the resolved deviation's deadline is at
least the closing time, the returned deadline is too. -/
lemma get_timing_past_close_snd_ge (e : BaseExercise) (students : List Nat)
    (when : Int) (r : DeadlineRuleDeviation)
    (hdev : e.one_has_deadline_deviation students = some r)
    (hrc : e.course_module.closing_time ≤
      r.get_new_deadline e.course_module.closing_time) :
    e.course_module.closing_time ≤ (e.get_timing_past_close students when).2 := by
  unfold BaseExercise.get_timing_past_close
  rw [hdev]
  by_cases hle : when ≤ r.get_new_deadline e.course_module.closing_time
  · cases hpen : r.without_late_penalty <;> simp [hle, hpen, hrc]
  · have hwhen : e.course_module.closing_time < when := lt_of_le_of_lt hrc (not_le.mp hle)
    by_cases hlso : e.course_module.is_late_submission_open when = true
    · have hld : when ≤ e.course_module.late_submission_deadline := by
        simp only [CourseModule.is_late_submission_open, Bool.and_eq_true,
          decide_eq_true_eq] at hlso
        exact hlso.2.2
      simp [hle, hlso]
      omega
    · cases hu : e.category.accept_unofficial_submits <;>
        simp [hle, hlso, hu, hrc]

/-! ## Claim C5 -/

/-- Claim C5, amended: provided the module has already opened at the instant
and the course is not archived there, whenever some applicable deadline
deviation extends the deadline beyond the module's closing time, the deadline
returned by `get_timing` is never earlier than the closing time.  (Before the
module opens the code returns the opening time, and under archival the
archive time, either of which may precede the closing time — hence the two
provisos.) -/
theorem extended_deadline_not_before_closing (e : BaseExercise)
    (students : List Nat) (when : Int) (d : DeadlineRuleDeviation)
    (hopen : e.course_module.is_after_open when = true)
    (harch : e.course_instance.is_archived when = false)
    (hmem : d ∈ e.deadlineruledeviation_set)
    (hsub : d.submitter ∈ students)
    (hext : e.course_module.closing_time <
      d.get_new_deadline e.course_module.closing_time) :
    e.course_module.closing_time ≤ (e.get_timing students when).2 := by
  obtain ⟨r, hr, hler⟩ := one_has_deadline_deviation_ge e students d hmem hsub
  have hrc : e.course_module.closing_time ≤
      r.get_new_deadline e.course_module.closing_time :=
    le_of_lt (lt_of_lt_of_le hext hler)
  have harch' : e.course_module.course_instance.is_archived when = false := harch
  have htail := get_timing_past_close_snd_ge e students when r hr hrc
  by_cases h2 : (e.course_module.is_open when || e.category.confirm_the_level) = true
  · simp [BaseExercise.get_timing, hopen, h2]
  · have h2' : (e.course_module.is_open when || e.category.confirm_the_level) = false :=
      Bool.not_eq_true _ ▸ eq_false_of_ne_true h2
    cases hat : e.course_module.course_instance.archive_time with
    | none => simpa [BaseExercise.get_timing, hopen, h2', hat] using htail
    | some a => simpa [BaseExercise.get_timing, hopen, h2', hat, harch'] using htail

/-- Witness for claim C5: module open on `[0, 10]`, instant 12, +5 deviation
extending the deadline to 15 — the returned deadline is not before 10. -/
theorem extended_deadline_not_before_closing_witness :
    dev_ex.course_module.closing_time ≤ (dev_ex.get_timing [1] 12).2 :=
  extended_deadline_not_before_closing dev_ex [1] 12 dev_plus5 (by decide) (by decide)
    (by decide) (by decide) (by decide)

/-- Claim C5, counterexample: the claim quantifies over *every* instant, but
before the module opens (opening 10, closing 20, instant 0) the code returns
the opening time 10, which is earlier than the closing time 20, even though
an applicable deviation extends the deadline to 30. -/
theorem closed_before_deviation_counterexample :
    before_ex.one_has_deadline_deviation [1] = some ⟨1, 10, false⟩ ∧
    before_ex.course_module.closing_time <
      DeadlineRuleDeviation.get_new_deadline ⟨1, 10, false⟩
        before_ex.course_module.closing_time ∧
    before_ex.get_timing [1] 0 = (TIMING.CLOSED_BEFORE, 10) ∧
    (before_ex.get_timing [1] 0).2 < before_ex.course_module.closing_time := by decide

/-! ## Claim C7 -/

/-- The warning tags that land in the blocking `warnings` list of the final
verdict step (as opposed to the non-blocking `access_warnings` list). -/
def is_blocking_warning : Warning → Bool
  | Warning.group_size_requirement => true
  | Warning.quota_used => true
  | _ => false

/-- The timing warnings of `one_has_access` are never blocking warnings. -/
lemma one_has_access_warnings_not_blocking (e : BaseExercise) (students : List Nat)
    (when : Int) :
    (e.one_has_access students when).2.filter is_blocking_warning = [] := by
  unfold BaseExercise.one_has_access
  cases h : (e.get_timing students when).1 <;> simp [h, is_blocking_warning]

/-- The group-size warnings are all blocking warnings. -/
lemma group_size_warnings_filter (e : BaseExercise) (students : List Nat) :
    (group_size_warnings e students).filter is_blocking_warning =
      group_size_warnings e students := by
  unfold group_size_warnings
  split <;> simp [is_blocking_warning]

/-- Claim C7, amended: once evaluation reaches the final verdict step (no
early return from the enrollment, group-change or cross-group checks fired),
the verdict is allowed iff the timing check grants access and the blocking
warnings among the returned warnings are empty, or every resolved submitter
is course staff; the early returns are *not* bypassed by staff membership
except for the missing-enrollment return, which allows exactly the staff. -/
theorem final_verdict_characterization (e : BaseExercise) (subs : List Submission)
    (profile : UserProfile) (group : Option StudentGroup) (when : Int) :
    (e.check_submitters subs profile group when).1 =
      (((e.one_has_access (resolve_students profile group) when).1 &&
        decide (((e.check_submitters subs profile group when).2.1.filter
          is_blocking_warning) = [])) ||
       (resolve_students profile group).all
         (fun p => e.course_instance.is_course_staff p)) := by
  by_cases hq : e.one_has_submissions subs (resolve_students profile group) = true
  · have hr : e.check_submitters subs profile group when =
        (((e.one_has_access (resolve_students profile group) when).1 &&
            decide (group_size_warnings e (resolve_students profile group) = [])) ||
          (resolve_students profile group).all
            (fun p => e.course_instance.is_course_staff p),
         group_size_warnings e (resolve_students profile group) ++
           (e.one_has_access (resolve_students profile group) when).2,
         resolve_students profile group) := by
      simp [BaseExercise.check_submitters, hq]
    rw [hr]
    simp only [List.filter_append, one_has_access_warnings_not_blocking,
      group_size_warnings_filter, List.append_nil]
  · have hq' : e.one_has_submissions subs (resolve_students profile group) = false :=
      Bool.not_eq_true _ ▸ eq_false_of_ne_true hq
    by_cases hl : e.course_module.late_submissions_allowed = true
    · have hr : e.check_submitters subs profile group when =
          (((e.one_has_access (resolve_students profile group) when).1 &&
              decide (group_size_warnings e (resolve_students profile group) = [])) ||
            (resolve_students profile group).all
              (fun p => e.course_instance.is_course_staff p),
           group_size_warnings e (resolve_students profile group) ++
             ((e.one_has_access (resolve_students profile group) when).2 ++
               [Warning.quota_used_unofficial_ok]),
           resolve_students profile group) := by
        simp [BaseExercise.check_submitters, hq', hl]
      rw [hr]
      simp only [List.filter_append, one_has_access_warnings_not_blocking,
        group_size_warnings_filter, List.nil_append]
      simp [is_blocking_warning]
    · have hl' : e.course_module.late_submissions_allowed = false :=
        Bool.not_eq_true _ ▸ eq_false_of_ne_true hl
      have hr : e.check_submitters subs profile group when =
          (((e.one_has_access (resolve_students profile group) when).1 &&
              decide ((group_size_warnings e (resolve_students profile group) ++
                [Warning.quota_used]) = [])) ||
            (resolve_students profile group).all
              (fun p => e.course_instance.is_course_staff p),
           (group_size_warnings e (resolve_students profile group) ++
             [Warning.quota_used]) ++
             (e.one_has_access (resolve_students profile group) when).2,
           resolve_students profile group) := by
        simp [BaseExercise.check_submitters, hq', hl']
      rw [hr]
      simp only [List.filter_append, one_has_access_warnings_not_blocking,
        group_size_warnings_filter, List.append_nil]
      simp [is_blocking_warning]

/-- Claim C7, counterexample: on an enrollment exercise whose course makes
everyone staff but nobody enrollable, the resolved submitter set `[1]` is all
staff, yet the verdict is denied — the claimed "allowed iff ... or every
submitter is staff" equivalence fails at the enrollability early return. -/
theorem staff_override_early_return_counterexample :
    [1].all (fun p => staff_ex.course_instance.is_course_staff p) = true ∧
    staff_ex.check_submission_allowed [] ⟨1, []⟩ none 5 =
      (false, [Warning.cannot_enroll], [1]) := by decide

/-! ## Claim C1 -/

/-- An exercise with `max_submissions = 2`, groups of 1-2, module open on
`[0, 10]`, late submissions disallowed. -/
def two_ex : BaseExercise :=
  ⟨STATUS.ready, ⟨0, 10, 10, false, plain_ci⟩, ⟨false, false⟩, 1, 2, 2, [], []⟩

/-- A first submission by the group `{1, 2}`, then a solo one by student 1:
student 1 has used 2 of 2 submissions, student 2 only 1. -/
def two_subs : List Submission := [⟨[1, 2], false⟩, ⟨[1], false⟩]

/-- Student 1, member of the group of id 5 with members `{1, 2}`. -/
def two_prof : UserProfile := ⟨1, [pair_grp]⟩

/-- Claim C1, counterexample: student 1 has exhausted the quota (2 of 2) while
student 2 has one submission left — so not *every* submitter has remaining
quota and the claim demands a warning, yet `one_has_submissions` is true
(the code asks whether *some* submitter has quota left) and the attempt is
allowed with no warning at all. -/
theorem quota_every_submitter_counterexample :
    (get_submissions_for_student two_subs 1 true).length = 2 ∧
    two_ex.max_submissions_for_student 1 = 2 ∧
    (get_submissions_for_student two_subs 2 true).length = 1 ∧
    quota_not_exhausted_spec two_ex two_subs [1, 2] = false ∧
    two_ex.one_has_submissions two_subs [1, 2] = true ∧
    two_ex.check_submission_allowed two_subs two_prof
      (some ⟨some (GroupParam.gid 5)⟩) 5 = (true, [], [1, 2]) := by decide

/-- Claim C1, amended: each submitter's quota is `max_submissions` plus their
extra-submissions deviation (0 = unlimited), and the quota is considered not
exhausted iff *some* submitter (not every submitter) has at least 1 remaining
submission after excluding error submissions; when it is exhausted, the
warning is appended to the non-blocking list when late submissions are
allowed (leaving the verdict to the timing and group-size checks alone) and
to the blocking list otherwise, where it denies every non-staff set. -/
theorem quota_check_counts_any_submitter (e : BaseExercise) (subs : List Submission)
    (students : List Nat) (profile : UserProfile) (group : Option StudentGroup)
    (when : Int)
    (hq : e.one_has_submissions subs (resolve_students profile group) = false) :
    (e.one_has_submissions subs students =
      (e.max_submissions == 0 || students.any (fun p =>
        decide ((get_submissions_for_student subs p true).length <
          e.max_submissions_for_student p)))) ∧
    (e.course_module.late_submissions_allowed = true →
      e.check_submitters subs profile group when =
        (((e.one_has_access (resolve_students profile group) when).1 &&
            decide (group_size_warnings e (resolve_students profile group) = [])) ||
          (resolve_students profile group).all
            (fun p => e.course_instance.is_course_staff p),
         group_size_warnings e (resolve_students profile group) ++
           ((e.one_has_access (resolve_students profile group) when).2 ++
             [Warning.quota_used_unofficial_ok]),
         resolve_students profile group)) ∧
    (e.course_module.late_submissions_allowed = false →
      Warning.quota_used ∈ (e.check_submitters subs profile group when).2.1 ∧
      ((resolve_students profile group).all
          (fun p => e.course_instance.is_course_staff p) = false →
        (e.check_submitters subs profile group when).1 = false)) := by
  refine ⟨?_, ?_, ?_⟩
  · cases h : (e.max_submissions == 0) <;>
      simp [BaseExercise.one_has_submissions, h]
  · intro hl
    simp [BaseExercise.check_submitters, hq, hl]
  · intro hl
    have hr : e.check_submitters subs profile group when =
        (((e.one_has_access (resolve_students profile group) when).1 &&
            decide ((group_size_warnings e (resolve_students profile group) ++
              [Warning.quota_used]) = [])) ||
          (resolve_students profile group).all
            (fun p => e.course_instance.is_course_staff p),
         (group_size_warnings e (resolve_students profile group) ++
           [Warning.quota_used]) ++
           (e.one_has_access (resolve_students profile group) when).2,
         resolve_students profile group) := by
      simp [BaseExercise.check_submitters, hq, hl]
    rw [hr]
    constructor
    · simp
    · intro hstaff
      simp [hstaff]

/-- Witness for claim C1 at the exact-quota fixture: quota exhausted, late
submissions disallowed, nobody staff — the verdict is denied. -/
theorem quota_check_counts_any_submitter_witness :
    (quota_ex.check_submitters quota_subs quota_prof none 5).1 = false :=
  ((quota_check_counts_any_submitter quota_ex quota_subs [1, 2] quota_prof none 5
    (by decide)).2.2 (by decide)).2 (by decide)

/-! ## Claim C9 -/

/-- Deleting a key removes it from the cache. -/
lemma cacheGet_delete {α : Type} (c : List (String × α)) (k : String) :
    cacheGet (cacheDelete c k) k = none := by
  have h : (cacheDelete c k).find? (fun p => p.1 == k) = none := by
    rw [List.find?_eq_none]
    intro x hx
    have h2 := (List.mem_filter.mp hx).2
    simp at h2 ⊢
    exact h2
  simp [cacheGet, h]

/-- Claim C9: after invalidating a key, the next lookup runs the generation
and hands the caller its fresh value; a clean generation is stored under the
key, while a dirty generation leaves the key absent, so no subsequent lookup
can observe the dirty result from the cache — the next lookup generates
again and returns that later generation's value. -/
theorem cache_invalidate_roundtrip {α : Type} (cache : List (String × α))
    (key : String) (gen : Nat → α × Bool) (n : Nat) :
    ((cached_lookup (cacheDelete cache key) key gen n).1 = (gen n).1) ∧
    ((gen n).2 = false →
      cacheGet (cached_lookup (cacheDelete cache key) key gen n).2.1 key =
        some (gen n).1) ∧
    ((gen n).2 = true →
      cacheGet (cached_lookup (cacheDelete cache key) key gen n).2.1 key = none ∧
      (cached_lookup (cached_lookup (cacheDelete cache key) key gen n).2.1 key gen
        (cached_lookup (cacheDelete cache key) key gen n).2.2).1 = (gen (n + 1)).1) := by
  have hget := cacheGet_delete cache key
  refine ⟨?_, ?_, ?_⟩
  · unfold cached_lookup
    rw [hget]
    cases hd : (gen n).2 <;> simp [hd]
  · intro hd
    unfold cached_lookup
    rw [hget]
    simp [hd, cacheSet, cacheGet]
  · intro hd
    have hlook : cached_lookup (cacheDelete cache key) key gen n =
        ((gen n).1, cacheDelete cache key, n + 1) := by
      unfold cached_lookup
      rw [hget]
      simp [hd]
    rw [hlook]
    refine ⟨hget, ?_⟩
    unfold cached_lookup
    rw [hget]
    cases hd2 : (gen (n + 1)).2 <;> simp [hd2]

/-- The witness cache key. -/
def keyW : String := "k"

/-- The witness cache: the value 7 stored under `keyW`. -/
def cacheW : List (String × Nat) := [(keyW, 7)]

/-- Witness for claim C9 with a dirty first generation: the key stays absent
and the following lookup returns the second generation's value. -/
theorem cache_invalidate_roundtrip_witness :
    cacheGet (cached_lookup (cacheDelete cacheW keyW) keyW genW 0).2.1 keyW = none ∧
    (cached_lookup (cached_lookup (cacheDelete cacheW keyW) keyW genW 0).2.1 keyW genW
      (cached_lookup (cacheDelete cacheW keyW) keyW genW 0).2.2).1 = (genW (0 + 1)).1 :=
  (cache_invalidate_roundtrip cacheW keyW genW 0).2.2 (by decide)

end APlus
